import Mathlib

/-!
Shallow embedding of the YOLO object-detection FastAPI service
(src/main.py) and verification of its specification claims.

The service exposes one endpoint, detect_objects, which validates an
uploaded file (verify_image) and then runs two YOLO models over the
image bytes, counting detections per class (detect_and_count_objects).

External collaborators (ultralytics YOLO models and Pillow) are modelled
as black boxes: a YOLO model is a function from image bytes and a
confidence threshold to either an exception message or a list of
per-image result objects, each carrying the detected class ids
(`result.boxes.cls` in the source); Pillow image verification is a
function from bytes to success or an exception message.  Python
`Counter` objects (dict subclasses, hence insertion-ordered) are
modelled as association lists with in-place increment and append of
fresh keys.
-/

set_option autoImplicit false

namespace YOLOApp

/-- A FastAPI HTTPException: status code and detail message. -/
structure HTTPError where
  status : Nat
  detail : String
deriving DecidableEq

/-- An exception escaping a Python function: either an HTTPException or
any other exception, carried as its rendered message. -/
inductive Exc where
  | http (e : HTTPError)
  | py (msg : String)
deriving DecidableEq

/-- Raw uploaded image bytes. -/
abbrev ImageBytes := List Nat

/-- The uploaded file as the handler sees it: a declared content type
(absent when the client sends none) and the raw bytes. -/
structure UploadFile where
  content_type : Option String
  contents : ImageBytes
deriving DecidableEq

/-- Pillow as a black box: `Image.open` followed by `image.verify` on
the given bytes either succeeds or raises with a message. -/
structure PIL where
  verifyImage : ImageBytes → Except String Unit

/-- The fixed confidence threshold `conf_thresh = 0.5` of src/main.py,
passed unchanged to both model calls. -/
def conf_thresh : ℚ := 1 / 2

/-- An ultralytics YOLO model as a black box.  Calling
`model(img, conf=t)` returns a list of Results objects (one per input
image) or raises; `run` returns the lists of detected class ids
(`result.boxes.cls.tolist()`) of each Results object in order.  `names`
is the class-id to class-name mapping fixed at load time. -/
structure YOLO where
  run : ImageBytes → ℚ → Except String (List (List Nat))
  names : Nat → String

/-- One step of `counter[class_name] += 1` on an insertion-ordered
Python Counter: increment the entry in place when the key is present,
else append a fresh entry with count 1. -/
def counterAdd : List (String × Nat) → String → List (String × Nat)
  | [], k => [(k, 1)]
  | (k', n) :: rest, k =>
      if k' = k then (k', n + 1) :: rest else (k', n) :: counterAdd rest k

/-- The Counter built by the `for class_id in detected_class_ids` loop,
applied to the list of class names of the detections. -/
def countNames (l : List String) : List (String × Nat) :=
  l.foldl counterAdd []

/-- The class names of the detections the code actually counts for one
model: the ids of the FIRST Results object (`results[0]`) when the
results list is non-empty, mapped through the model vocabulary; an
empty results list leaves the Counter empty. -/
def classNamesOf (m : YOLO) (results : List (List Nat)) : List String :=
  (results.headD []).map fun cid => m.names cid

/-- One element of the response `objects` array:
`{"object_name": name, "object_count": count}`. -/
structure ClassCountEntry where
  object_name : String
  object_count : Nat
deriving DecidableEq

/-- The list comprehension
`[{"object_name": name, "object_count": count} for name, count in counter.items()]`. -/
def entriesOf (c : List (String × Nat)) : List ClassCountEntry :=
  c.map fun p => ⟨p.1, p.2⟩

/-- The JSON body returned by detect_and_count_objects:
`noDetections` is the distinguished shape
`\x7b"objects": "No detections found."\x7d`, and `objects l` is
`\x7b"objects": [...]\x7d` with the given array. -/
inductive DetectResponse where
  | noDetections
  | objects (l : List ClassCountEntry)
deriving DecidableEq

/-- The HTTPException raised when a model handle is None. -/
def modelsNotLoadedError : HTTPError :=
  ⟨500, "Object detection models are not loaded. Server might be misconfigured."⟩

/-- src/main.py lines 76-123, `detect_and_count_objects`.  The two
`Option YOLO` arguments are the module-global model handles
`model_flower` and `model_coco_yolo8` (None when loading failed).
`Image.open` on the already-verified bytes only reads the header, so
the decoded image handed to the models is represented by the bytes
themselves.  A model call that raises surfaces as an `Exc.py`
exception propagating out of the function. -/
def detect_and_count_objects (model_flower model_coco_yolo8 : Option YOLO)
    (img_contents : ImageBytes) : Except Exc DetectResponse :=
  match model_coco_yolo8, model_flower with
  | none, _ => .error (.http modelsNotLoadedError)
  | _, none => .error (.http modelsNotLoadedError)
  | some mc, some mf =>
    match mf.run img_contents conf_thresh with
    | .error e => .error (.py e)
    | .ok results_flower =>
      match mc.run img_contents conf_thresh with
      | .error e => .error (.py e)
      | .ok results_yolo8 =>
        if results_flower = [] ∧ results_yolo8 = [] then
          .ok .noDetections
        else
          let count_flowers := countNames (classNamesOf mf results_flower)
          let count_coco_objects := countNames (classNamesOf mc results_yolo8)
          let data_flower_obj := entriesOf count_flowers
          let data_coco_obj := entriesOf count_coco_objects
          let total_data := data_flower_obj ++ data_coco_obj
          .ok (.objects total_data)

/-- Python str.startswith, modelled character-wise: the characters of
the candidate prefix are a prefix of the characters of the string.
This agrees with String.startsWith but, being structural recursion,
also evaluates inside the kernel. -/
def pyStartswith (s pre : String) : Bool :=
  pre.data.isPrefixOf s.data

/-- The message of the AttributeError Python raises when
`file.content_type` is None and `.startswith` is attribute-accessed on
it (modulo exact rendering, which carries quote characters we do not
reproduce). -/
def noneStartswithMsg : String :=
  "NoneType object has no attribute startswith"

/-- src/main.py lines 126-156, `verify_image`.  The whole body sits in
a try block whose handlers re-raise HTTPExceptions unchanged and turn
any other exception into a 500; hence the function always exits with
either the bytes or an HTTPError.  When the declared content type is
absent, `file.content_type.startswith` raises AttributeError, which
the catch-all converts to the generic 500. -/
def verify_image (pil : PIL) (file : UploadFile) : Except HTTPError ImageBytes :=
  match file.content_type with
  | none =>
      .error ⟨500, "An internal server error occurred: " ++ noneStartswithMsg⟩
  | some ct =>
      if pyStartswith ct "image/" then
        match pil.verifyImage file.contents with
        | .error e => .error ⟨400, "Could not process image: " ++ e⟩
        | .ok _ => .ok file.contents
      else
        .error ⟨400, "Invalid file type. Only image files are allowed."⟩

/-- src/main.py lines 159-173, the `/detect-objects` endpoint.  It runs
verify_image, then detect_and_count_objects; HTTPExceptions are
re-raised as-is and any other exception becomes a 500 with the message
prefixed by "An unexpected error occurred: ". -/
def detect_objects (pil : PIL) (model_flower model_coco_yolo8 : Option YOLO)
    (file : UploadFile) : Except HTTPError DetectResponse :=
  match verify_image pil file with
  | .error e => .error e
  | .ok img_content =>
    match detect_and_count_objects model_flower model_coco_yolo8 img_content with
    | .ok r => .ok r
    | .error (.http e) => .error e
    | .error (.py m) => .error ⟨500, "An unexpected error occurred: " ++ m⟩

/-- The distinct class names of a list, each at its first occurrence
(the key order of an insertion-ordered Counter fed that list). -/
def firstSeen (l : List String) : List String :=
  l.foldl (fun acc a => if a ∈ acc then acc else acc ++ [a]) []

/-- A model produced zero detections on an image: its call succeeded
and the returned Results objects contain no boxes at all. -/
def zeroDetections (m : YOLO) (img : ImageBytes) : Prop :=
  ∃ rs, m.run img conf_thresh = .ok rs ∧ rs.flatten = []

/-! Concrete fixtures used to witness and refute the claims. -/

/-- A Pillow stand-in that verifies every byte string. -/
def pilOk : PIL := ⟨fun _ => .ok ()⟩

/-- A Pillow stand-in that rejects every byte string. -/
def pilReject : PIL := ⟨fun _ => .error "cannot identify image file"⟩

/-- A model that always returns an empty results list. -/
def alwaysEmptyModel : YOLO := ⟨fun _ _ => .ok [], fun _ => "obj"⟩

/-- A model that always returns one Results object with zero boxes:
zero detections, but a non-empty (truthy) results list. -/
def emptyResultModel : YOLO := ⟨fun _ _ => .ok [[]], fun _ => "obj"⟩

/-- A model whose detection call always raises. -/
def failingModel : YOLO := ⟨fun _ _ => .error "model crashed", fun _ => "obj"⟩

/-- A model that always detects one object of class "vase". -/
def oneDetModel : YOLO := ⟨fun _ _ => .ok [[0]], fun _ => "vase"⟩

/-- A model that detects classes 0, 1, 0 in that order, with vocabulary
0 = "rose" and everything else = "daisy". -/
def roseDaisyModel : YOLO :=
  ⟨fun _ _ => .ok [[0, 1, 0]], fun cid => if cid = 0 then "rose" else "daisy"⟩

/-- A model detecting two objects that its vocabulary names "vase". -/
def vaseModelA : YOLO := ⟨fun _ _ => .ok [[0, 0]], fun _ => "vase"⟩

/-- A model detecting one object that its vocabulary also names "vase". -/
def vaseModelB : YOLO := ⟨fun _ _ => .ok [[0]], fun _ => "vase"⟩

/-- An upload declared as a JPEG image, with empty bytes. -/
def imageFile : UploadFile := ⟨some "image/jpeg", []⟩

/-- An upload declared as plain text. -/
def textFile : UploadFile := ⟨some "text/plain", []⟩

/-- An upload with no declared content type. -/
def noTypeFile : UploadFile := ⟨none, [5]⟩

/-- An upload declared as a PNG image, with junk bytes. -/
def corruptFile : UploadFile := ⟨some "image/png", [1, 2, 3]⟩

/-! Lemmas about the insertion-ordered Counter model. -/

/-- Adding a key to a Counter either keeps the key list (key present)
or appends the key at the end (key fresh). -/
theorem counterAdd_keys (c : List (String × Nat)) (k : String) :
    (counterAdd c k).map Prod.fst =
      if k ∈ c.map Prod.fst then c.map Prod.fst
      else c.map Prod.fst ++ [k] := by
  induction c with
  | nil => simp [counterAdd]
  | cons p rest ih =>
    obtain ⟨k', n⟩ := p
    by_cases h : k' = k
    · subst h
      simp [counterAdd]
    · simp only [counterAdd, if_neg h, List.map_cons, List.mem_cons, ih]
      by_cases hk : k ∈ rest.map Prod.fst
      · simp [hk, Ne.symm h]
      · simp [hk, Ne.symm h]

/-- Key lists of the Counter loop, relative to any starting Counter. -/
theorem countNames_keys_aux (l : List String) (c : List (String × Nat)) :
    (List.foldl counterAdd c l).map Prod.fst =
      List.foldl (fun acc a => if a ∈ acc then acc else acc ++ [a])
        (c.map Prod.fst) l := by
  induction l generalizing c with
  | nil => rfl
  | cons a l ih =>
    rw [List.foldl_cons, List.foldl_cons, ih, counterAdd_keys]

/-- The keys of the Counter of a name list are exactly the distinct
names in first-seen order. -/
theorem countNames_keys (l : List String) :
    (countNames l).map Prod.fst = firstSeen l :=
  countNames_keys_aux l []

/-- The first-seen fold preserves freedom from duplicates. -/
theorem firstSeen_aux_nodup (l : List String) (acc : List String)
    (h : acc.Nodup) :
    (List.foldl (fun acc a => if a ∈ acc then acc else acc ++ [a]) acc l).Nodup := by
  induction l generalizing acc with
  | nil => exact h
  | cons a l ih =>
    rw [List.foldl_cons]
    by_cases ha : a ∈ acc
    · rw [if_pos ha]
      exact ih acc h
    · rw [if_neg ha]
      refine ih _ ?_
      simp [List.nodup_append, h, ha]

/-- The distinct first-seen names contain no duplicates. -/
theorem firstSeen_nodup (l : List String) : (firstSeen l).Nodup :=
  firstSeen_aux_nodup l [] List.nodup_nil

/-- counterAdd preserves positivity of all counts. -/
theorem counterAdd_pos (c : List (String × Nat)) (k : String)
    (h : ∀ p ∈ c, 1 ≤ p.2) : ∀ p ∈ counterAdd c k, 1 ≤ p.2 := by
  induction c with
  | nil =>
    intro p hp
    simp only [counterAdd, List.mem_singleton] at hp
    subst hp
    exact Nat.le_refl 1
  | cons q rest ih =>
    obtain ⟨k', n⟩ := q
    intro p hp
    simp only [counterAdd] at hp
    by_cases hk : k' = k
    · rw [if_pos hk] at hp
      rcases List.mem_cons.mp hp with hp | hp
      · subst hp
        exact Nat.succ_le_succ (Nat.zero_le n)
      · exact h p (List.mem_cons_of_mem _ hp)
    · rw [if_neg hk] at hp
      rcases List.mem_cons.mp hp with hp | hp
      · subst hp
        exact h (k', n) (List.mem_cons_self _ _)
      · exact ih (fun q hq => h q (List.mem_cons_of_mem _ hq)) p hp

/-- Every count the detection loop produces is at least 1. -/
theorem countNames_pos (l : List String) : ∀ p ∈ countNames l, 1 ≤ p.2 := by
  have aux : ∀ (l : List String) (c : List (String × Nat)),
      (∀ p ∈ c, 1 ≤ p.2) → ∀ p ∈ List.foldl counterAdd c l, 1 ≤ p.2 := by
    intro l
    induction l with
    | nil => intro c hc; exact hc
    | cons a l ih => intro c hc; exact ih _ (counterAdd_pos c a hc)
  exact aux l [] (by simp)

/-- The object_name fields of the response entries are the Counter keys. -/
theorem entriesOf_map_name (c : List (String × Nat)) :
    (entriesOf c).map ClassCountEntry.object_name = c.map Prod.fst := by
  simp only [entriesOf, List.map_map]
  rfl

/-- Every response entry comes from a Counter pair. -/
theorem entriesOf_count (c : List (String × Nat)) :
    ∀ e ∈ entriesOf c, ∃ p ∈ c, e = ⟨p.1, p.2⟩ := by
  intro e he
  simp only [entriesOf, List.mem_map] at he
  obtain ⟨p, hp, he⟩ := he
  exact ⟨p, hp, he.symm⟩

/-! Claim theorems. -/

/-- C1, counterexample.  The claim says: for every valid image on which
both models produce zero detections, the endpoint returns
`\x7b"objects": "No detections found."\x7d` and never an empty array.
This fails on the code: the short-circuit at line 89 tests truthiness
of the results LISTS (`not results_flower and not results_yolo8`), not
absence of detections.  A model call that returns one Results object
containing zero boxes has produced zero detections, yet its results
list is truthy, so the code falls through to the counting path and
returns an empty `objects` array. -/
theorem c1_counterexample :
    zeroDetections emptyResultModel [] ∧
    detect_and_count_objects (some emptyResultModel) (some emptyResultModel) []
      = .ok (.objects []) :=
  ⟨⟨[[]], rfl, rfl⟩, rfl⟩

/-- C1, amended: when both model calls return EMPTY results lists, the
endpoint returns the distinguished response
`\x7b"objects": "No detections found."\x7d`; but a model producing zero
detections through a non-empty results list (a Results object with
zero boxes) instead yields a response whose objects key is an empty
array. -/
theorem c1_amended_no_detections (mf mc : YOLO) (img : ImageBytes)
    (hf : mf.run img conf_thresh = .ok [])
    (hc : mc.run img conf_thresh = .ok []) :
    detect_and_count_objects (some mf) (some mc) img = .ok .noDetections := by
  simp [detect_and_count_objects, hf, hc]

/-- C1, witness for the amended theorem at a concrete model pair. -/
theorem c1_witness :
    detect_and_count_objects (some alwaysEmptyModel) (some alwaysEmptyModel) []
      = .ok .noDetections :=
  c1_amended_no_detections alwaysEmptyModel alwaysEmptyModel [] rfl rfl

/-- C2: whenever the response carries an objects array, the array is
the flower-model entries followed by the coco-model entries, and each
model's portion lists its class names in the order in which each class
was first encountered in that model's raw detections (not sorted
alphabetically or by count). -/
theorem c2_entry_order (mf mc : YOLO) (img : ImageBytes)
    (rf rc : List (List Nat))
    (hf : mf.run img conf_thresh = .ok rf)
    (hc : mc.run img conf_thresh = .ok rc)
    (hne : ¬(rf = [] ∧ rc = [])) :
    ∃ A B : List ClassCountEntry,
      detect_and_count_objects (some mf) (some mc) img = .ok (.objects (A ++ B)) ∧
      A.map ClassCountEntry.object_name = firstSeen (classNamesOf mf rf) ∧
      B.map ClassCountEntry.object_name = firstSeen (classNamesOf mc rc) := by
  refine ⟨entriesOf (countNames (classNamesOf mf rf)),
    entriesOf (countNames (classNamesOf mc rc)), ?_, ?_, ?_⟩
  · simp [detect_and_count_objects, hf, hc, hne]
  · rw [entriesOf_map_name, countNames_keys]
  · rw [entriesOf_map_name, countNames_keys]

/-- C2, witness: a flower model seeing classes rose, daisy, rose and a
coco model seeing one vase. -/
theorem c2_witness :
    ∃ A B : List ClassCountEntry,
      detect_and_count_objects (some roseDaisyModel) (some oneDetModel) []
        = .ok (.objects (A ++ B)) ∧
      A.map ClassCountEntry.object_name
        = firstSeen (classNamesOf roseDaisyModel [[0, 1, 0]]) ∧
      B.map ClassCountEntry.object_name
        = firstSeen (classNamesOf oneDetModel [[0]]) :=
  c2_entry_order roseDaisyModel oneDetModel [] [[0, 1, 0]] [[0]] rfl rfl
    (by decide)

/-- C3, counterexample.  The claim says an error raised by one model's
detection call does not fail the pipeline and the request still
completes with a success-shaped response from the other model.  On the
code it does fail: nothing catches an exception from the model calls at
lines 85-86 inside detect_and_count_objects, so it propagates to the
endpoint's catch-all at lines 172-173 and the request ends with a 500,
even though the other model is loaded and succeeds. -/
theorem c3_counterexample :
    detect_objects pilOk (some failingModel) (some oneDetModel) imageFile
      = .error ⟨500, "An unexpected error occurred: model crashed"⟩ := rfl

/-- C3, amended: a model RETURNING EMPTY RESULTS does not fail the
pipeline — whichever of the two models comes back empty, the request
completes with a success-shaped response built from the other model's
detections alone; but an exception raised by a model's detection call
propagates to the endpoint catch-all and fails the request with
HTTP 500. -/
theorem c3_amended_empty_ok (mf mc : YOLO) (pil : PIL) (file : UploadFile)
    (ct : String)
    (hct : file.content_type = some ct)
    (himg : pyStartswith ct "image/" = true)
    (hpil : pil.verifyImage file.contents = .ok ())
    (rf rc : List (List Nat))
    (hf : mf.run file.contents conf_thresh = .ok rf)
    (hc : mc.run file.contents conf_thresh = .ok rc) :
    (rf = [] → rc ≠ [] →
      detect_objects pil (some mf) (some mc) file
        = .ok (.objects (entriesOf (countNames (classNamesOf mc rc))))) ∧
    (rc = [] → rf ≠ [] →
      detect_objects pil (some mf) (some mc) file
        = .ok (.objects (entriesOf (countNames (classNamesOf mf rf))))) := by
  constructor
  · intro hrf hrc
    subst hrf
    simp [detect_objects, verify_image, hct, himg, hpil,
      detect_and_count_objects, hf, hc, hrc, classNamesOf, countNames,
      entriesOf]
  · intro hrc hrf
    subst hrc
    simp [detect_objects, verify_image, hct, himg, hpil,
      detect_and_count_objects, hf, hc, hrf, classNamesOf, countNames,
      entriesOf]

/-- C3, witness for the amended theorem, in both directions: with the
flower model empty and the coco model seeing one vase the request
succeeds with the vase entry alone, and symmetrically with the roles
of the two models swapped. -/
theorem c3_witness :
    detect_objects pilOk (some alwaysEmptyModel) (some oneDetModel) imageFile
      = .ok (.objects (entriesOf (countNames (classNamesOf oneDetModel [[0]])))) ∧
    detect_objects pilOk (some oneDetModel) (some alwaysEmptyModel) imageFile
      = .ok (.objects (entriesOf (countNames (classNamesOf oneDetModel [[0]])))) := by
  constructor
  · exact (c3_amended_empty_ok alwaysEmptyModel oneDetModel pilOk imageFile
      "image/jpeg" rfl (by decide) rfl [] [[0]] rfl rfl).1 rfl (by decide)
  · exact (c3_amended_empty_ok oneDetModel alwaysEmptyModel pilOk imageFile
      "image/jpeg" rfl (by decide) rfl [[0]] [] rfl rfl).2 rfl (by decide)

/-- C4: the merge step is exactly concatenation of the flower-model
entries followed by the coco-model entries; a class name appearing in
both models' Counters yields two distinct entries (its name occurs
twice in the merged array), never one entry with a summed count. -/
theorem c4_merge_concat (mf mc : YOLO) (img : ImageBytes)
    (rf rc : List (List Nat))
    (hf : mf.run img conf_thresh = .ok rf)
    (hc : mc.run img conf_thresh = .ok rc)
    (hne : ¬(rf = [] ∧ rc = [])) :
    detect_and_count_objects (some mf) (some mc) img
      = .ok (.objects (entriesOf (countNames (classNamesOf mf rf))
          ++ entriesOf (countNames (classNamesOf mc rc)))) ∧
    ∀ n : String,
      n ∈ (countNames (classNamesOf mf rf)).map Prod.fst →
      n ∈ (countNames (classNamesOf mc rc)).map Prod.fst →
      ((entriesOf (countNames (classNamesOf mf rf))
          ++ entriesOf (countNames (classNamesOf mc rc))).map
        ClassCountEntry.object_name).count n = 2 := by
  constructor
  · simp [detect_and_count_objects, hf, hc, hne]
  · intro n hnf hnc
    rw [List.map_append, entriesOf_map_name, entriesOf_map_name,
      List.count_append, countNames_keys, countNames_keys]
    rw [countNames_keys] at hnf hnc
    rw [List.count_eq_one_of_mem (firstSeen_nodup _) hnf,
      List.count_eq_one_of_mem (firstSeen_nodup _) hnc]

/-- C4, witness: both vocabularies call their class "vase"; the merged
array keeps the flower entry (count 2) and the coco entry (count 1)
distinct, and the name "vase" occurs twice. -/
theorem c4_witness :
    detect_and_count_objects (some vaseModelA) (some vaseModelB) []
      = .ok (.objects (entriesOf (countNames (classNamesOf vaseModelA [[0, 0]]))
          ++ entriesOf (countNames (classNamesOf vaseModelB [[0]])))) ∧
    ((entriesOf (countNames (classNamesOf vaseModelA [[0, 0]]))
        ++ entriesOf (countNames (classNamesOf vaseModelB [[0]]))).map
      ClassCountEntry.object_name).count "vase" = 2 := by
  have h := c4_merge_concat vaseModelA vaseModelB [] [[0, 0]] [[0]]
    rfl rfl (by decide)
  exact ⟨h.1, h.2 "vase" (by decide) (by decide)⟩

/-- C5, counterexample.  The claim says EVERY request fails with the
identical 500 ModelUnavailable response when a model handle is None.
But validation runs first: a request whose upload is declared
text/plain fails with the 400 invalid-file-type response even while
both model handles are None, so not every request fails with 500, nor
identically. -/
theorem c5_counterexample :
    detect_objects pilOk none none textFile
      = .error ⟨400, "Invalid file type. Only image files are allowed."⟩ := rfl

/-- C5, amended: for every request that passes image validation, if
either model handle is None the endpoint fails with the identical 500
ModelUnavailable response, before any inference is attempted and
regardless of the other model (no partial-model degraded mode);
validation failures, however, take precedence over the model check. -/
theorem c5_amended_models_missing (pil : PIL) (file : UploadFile)
    (model_flower model_coco_yolo8 : Option YOLO) (img : ImageBytes)
    (hv : verify_image pil file = .ok img)
    (h : model_flower = none ∨ model_coco_yolo8 = none) :
    detect_objects pil model_flower model_coco_yolo8 file
      = .error modelsNotLoadedError := by
  rcases h with h | h
  · subst h
    cases model_coco_yolo8 <;>
      simp [detect_objects, hv, detect_and_count_objects]
  · subst h
    cases model_flower <;>
      simp [detect_objects, hv, detect_and_count_objects]

/-- C5, witness for the amended theorem: a valid upload against two
unloaded models fails with the ModelUnavailable 500. -/
theorem c5_witness :
    detect_objects pilOk none none imageFile = .error modelsNotLoadedError :=
  c5_amended_models_missing pilOk imageFile none none [] rfl (Or.inl rfl)

/-- C6: an upload whose declared content type does not begin with
image/ fails with the 400 invalid-file-type response; the conclusion
holds for EVERY Pillow behaviour and EVERY pair of model handles, so
the request terminates before the bytes are decoded and before either
model is invoked. -/
theorem c6_invalid_content_type (pil : PIL)
    (model_flower model_coco_yolo8 : Option YOLO) (file : UploadFile)
    (ct : String)
    (hct : file.content_type = some ct)
    (h : pyStartswith ct "image/" = false) :
    detect_objects pil model_flower model_coco_yolo8 file
      = .error ⟨400, "Invalid file type. Only image files are allowed."⟩ := by
  simp [detect_objects, verify_image, hct, h]

/-- C6, witness: a text/plain upload is rejected with 400 even under a
Pillow that rejects everything and models that would crash. -/
theorem c6_witness :
    detect_objects pilReject (some failingModel) (some failingModel) textFile
      = .error ⟨400, "Invalid file type. Only image files are allowed."⟩ :=
  c6_invalid_content_type pilReject (some failingModel) (some failingModel)
    textFile "text/plain" rfl (by decide)

/-- C7: an upload declared as an image whose bytes fail Pillow
verification fails with the 400 corrupt-image response; the conclusion
holds for EVERY pair of model handles, so a conforming declared content
type alone is never accepted — decoding must independently succeed
before any model is invoked. -/
theorem c7_corrupt_image (pil : PIL)
    (model_flower model_coco_yolo8 : Option YOLO) (file : UploadFile)
    (ct m : String)
    (hct : file.content_type = some ct)
    (himg : pyStartswith ct "image/" = true)
    (hpil : pil.verifyImage file.contents = .error m) :
    detect_objects pil model_flower model_coco_yolo8 file
      = .error ⟨400, "Could not process image: " ++ m⟩ := by
  simp [detect_objects, verify_image, hct, himg, hpil]

/-- C7, witness: junk bytes declared image/png are rejected with 400
before any model runs. -/
theorem c7_witness :
    detect_objects pilReject (some failingModel) (some oneDetModel) corruptFile
      = .error ⟨400, "Could not process image: cannot identify image file"⟩ :=
  c7_corrupt_image pilReject (some failingModel) (some oneDetModel) corruptFile
    "image/png" "cannot identify image file" rfl (by decide) rfl

/-- C8: in every array-shaped response, the array splits into the
flower-model portion followed by the coco-model portion — identified by
their name lists being exactly each model's first-seen class names —
and within each model's portion the object_name values are pairwise
distinct, while every entry's object_count is at least 1. -/
theorem c8_invariants (mf mc : YOLO) (img : ImageBytes)
    (rf rc : List (List Nat))
    (hf : mf.run img conf_thresh = .ok rf)
    (hc : mc.run img conf_thresh = .ok rc)
    (hne : ¬(rf = [] ∧ rc = [])) :
    ∃ A B : List ClassCountEntry,
      detect_and_count_objects (some mf) (some mc) img
        = .ok (.objects (A ++ B)) ∧
      A.map ClassCountEntry.object_name = firstSeen (classNamesOf mf rf) ∧
      B.map ClassCountEntry.object_name = firstSeen (classNamesOf mc rc) ∧
      (A.map ClassCountEntry.object_name).Nodup ∧
      (B.map ClassCountEntry.object_name).Nodup ∧
      ∀ e ∈ A ++ B, 1 ≤ e.object_count := by
  refine ⟨entriesOf (countNames (classNamesOf mf rf)),
    entriesOf (countNames (classNamesOf mc rc)), ?_, ?_, ?_, ?_, ?_, ?_⟩
  · simp [detect_and_count_objects, hf, hc, hne]
  · rw [entriesOf_map_name, countNames_keys]
  · rw [entriesOf_map_name, countNames_keys]
  · rw [entriesOf_map_name, countNames_keys]
    exact firstSeen_nodup _
  · rw [entriesOf_map_name, countNames_keys]
    exact firstSeen_nodup _
  · intro e he
    rcases List.mem_append.mp he with he | he
    · obtain ⟨p, hp, rfl⟩ := entriesOf_count _ e he
      exact countNames_pos _ p hp
    · obtain ⟨p, hp, rfl⟩ := entriesOf_count _ e he
      exact countNames_pos _ p hp

/-- C8, witness at a concrete model pair. -/
theorem c8_witness :
    ∃ A B : List ClassCountEntry,
      detect_and_count_objects (some roseDaisyModel) (some vaseModelB) []
        = .ok (.objects (A ++ B)) ∧
      A.map ClassCountEntry.object_name
        = firstSeen (classNamesOf roseDaisyModel [[0, 1, 0]]) ∧
      B.map ClassCountEntry.object_name
        = firstSeen (classNamesOf vaseModelB [[0]]) ∧
      (A.map ClassCountEntry.object_name).Nodup ∧
      (B.map ClassCountEntry.object_name).Nodup ∧
      ∀ e ∈ A ++ B, 1 ≤ e.object_count :=
  c8_invariants roseDaisyModel vaseModelB [] [[0, 1, 0]] [[0]] rfl rfl
    (by decide)

/-- C9: the detection-and-counting path is deterministic — on
byte-identical inputs, with the same model handles and the fixed
confidence threshold conf_thresh baked into detect_and_count_objects,
both the endpoint and the detection-and-counting function return
identical responses, hence identical object_count values per class. -/
theorem c9_deterministic (pil : PIL)
    (model_flower model_coco_yolo8 : Option YOLO)
    (f1 f2 : UploadFile) (h : f1 = f2) :
    detect_objects pil model_flower model_coco_yolo8 f1
      = detect_objects pil model_flower model_coco_yolo8 f2 ∧
    detect_and_count_objects model_flower model_coco_yolo8 f1.contents
      = detect_and_count_objects model_flower model_coco_yolo8 f2.contents := by
  subst h
  exact ⟨rfl, rfl⟩

/-- C9, witness at a concrete request. -/
theorem c9_witness :
    detect_objects pilOk (some roseDaisyModel) (some oneDetModel) imageFile
      = detect_objects pilOk (some roseDaisyModel) (some oneDetModel) imageFile ∧
    detect_and_count_objects (some roseDaisyModel) (some oneDetModel)
        imageFile.contents
      = detect_and_count_objects (some roseDaisyModel) (some oneDetModel)
        imageFile.contents :=
  c9_deterministic pilOk (some roseDaisyModel) (some oneDetModel)
    imageFile imageFile rfl

/-- C10: an upload with no declared content type makes
`file.content_type.startswith` raise AttributeError, which the
catch-all of verify_image converts into a generic 500
internal-server-error response — not the 400 invalid-file-type
response; this holds for every Pillow behaviour and model pair. -/
theorem c10_missing_content_type (pil : PIL)
    (model_flower model_coco_yolo8 : Option YOLO) (file : UploadFile)
    (h : file.content_type = none) :
    detect_objects pil model_flower model_coco_yolo8 file
      = .error ⟨500, "An internal server error occurred: " ++ noneStartswithMsg⟩ := by
  simp [detect_objects, verify_image, h]

/-- C10, witness: a typeless upload yields the generic 500. -/
theorem c10_witness :
    detect_objects pilOk none none noTypeFile
      = .error ⟨500, "An internal server error occurred: " ++ noneStartswithMsg⟩ :=
  c10_missing_content_type pilOk none none noTypeFile rfl

end YOLOApp
